import Mathlib

/-!
Verification of the layer abstraction in `src/core/include/dnn_layer.h`
(DNNMark). The C++ classes `Layer<T>` and `ConvolutionLayer<T>` are
shallowly embedded as state records with explicit state passing; C++
`int` fields become `Int` (with C++ truncating division `Int.tdiv`),
`size_t` becomes `Nat`. Calls into the external accelerator runtime and
primitives library (cudaMalloc/cudaFree/cuDNN) are recorded as events in
a trace, with the values the external library returns (selected
algorithm, workspace size) passed in as oracle arguments.
-/

namespace DNNMark

/-- Layer type enum from `dnn_layer.h` (lines 35-42). -/
inductive LayerType where
  | CONVOLUTION
  | POOLING
  | ACTIVIATION
  | LRN
  | FC
  | SOFTMAX
deriving DecidableEq

/-- 4-D data dimensions. `DataDim` is declared in `dnn_param.h` (not under
`src/`); its four `int` fields `n_`, `c_`, `h_`, `w_` are taken from their
uses in `dnn_layer.h`. Modelled with `Int` for C++ `int`. -/
structure DataDim where
  n_ : Int
  c_ : Int
  h_ : Int
  w_ : Int
deriving DecidableEq

/-- Convolution parameters. `ConvolutionParam` is declared in `dnn_param.h`
(not under `src/`); the fields are exactly those read by `dnn_layer.h`:
`output_num_`, `pad_h_`, `pad_w_`, `kernel_size_h_`, `kernel_size_w_`,
`stride_u_`, `stride_v_`, `conv_fwd_pref_` (the algorithm-selection
preference, opaque here). -/
structure ConvolutionParam where
  output_num_ : Int
  pad_h_ : Int
  pad_w_ : Int
  kernel_size_h_ : Int
  kernel_size_w_ : Int
  stride_u_ : Int
  stride_v_ : Int
  conv_fwd_pref_ : Nat
deriving DecidableEq

/-- Modelled from the spec: the BufferRegistry (`DataManager<T>` of
`data_manager.h`, which is not under `src/`). Per spec section 4.1 it hands
out fresh, never-aliasing handles with a monotonically increasing counter
and records each created buffer's size. Here the handle of the i-th created
chunk is the index i, and `sizes` records, in creation order, the element
count requested for each chunk; the counter is `sizes.length`. -/
structure DataManagerState where
  sizes : List Int
deriving DecidableEq

/-- Modelled from the spec: `DataManager::CreateData(size)` allocates a new
chunk of `size` elements and returns its fresh handle (spec section 4.1,
`CreateBuffer`). -/
def CreateData (dm : DataManagerState) (size : Int) : Nat × DataManagerState :=
  (dm.sizes.length, ⟨dm.sizes ++ [size]⟩)

/-- State of the base class `Layer<T>` (`dnn_layer.h` lines 44-118).
`bottom_desc_` is `none` until `DataTensor::Set` is called on it.
`bottoms_`/`bottom_diffs_` hold the `Data<T>*` pointers obtained from
`GetData`, identified here by their chunk handles. The `Handle*` and
`DataManager*` members are the execution context and the registry,
passed explicitly instead. -/
structure LayerState where
  has_learnable_params_ : Bool
  type_ : LayerType
  layer_id_ : Int
  layer_name_ : String
  previous_layer_name_ : String
  input_dim_ : DataDim
  bottom_desc_ : Option DataDim
  num_inputs_ : Int
  bottoms_ : List Nat
  bottom_chunk_ids_ : List Nat
  bottom_diffs_ : List Nat
  bottom_diff_chunk_ids_ : List Nat
deriving DecidableEq

/-- The `Layer` constructor (`dnn_layer.h` lines 66-72): `layer_id_ = 0`,
`has_learnable_params_ = false`, `num_inputs_ = 1`, default (all-zero)
`input_dim_`, unset tensor descriptor, empty vectors. The member `type_`
is left uninitialized by the constructor; `t0` stands for its
indeterminate initial content. -/
def Layer.init (t0 : LayerType) : LayerState :=
  { has_learnable_params_ := false
    type_ := t0
    layer_id_ := 0
    layer_name_ := ""
    previous_layer_name_ := ""
    input_dim_ := ⟨0, 0, 0, 0⟩
    bottom_desc_ := none
    num_inputs_ := 1
    bottoms_ := []
    bottom_chunk_ids_ := []
    bottom_diffs_ := []
    bottom_diff_chunk_ids_ := [] }

/-- Source line 82: `void setLayerType(LayerType type) { type = type_; }`.
The body assigns the member `type_` to the local parameter `type`; the
member itself is never written, so the state is returned unchanged. -/
def Layer.setLayerType (s : LayerState) (type : LayerType) : LayerState :=
  let type := s.type_
  s

/-- Source line 83: `LayerType getLayerType() { return type_; }`. -/
def Layer.getLayerType (s : LayerState) : LayerType :=
  s.type_

/-- The allocation loop of `Layer::Setup` (lines 102-111) and, with the
top vectors, of `ConvolutionLayer::Setup` (lines 187-196). At iteration
`i` the source pushes `CreateData(size)` onto the chunk-id vector and
then pushes `GetData(chunk_ids[i])` onto the pointer vector — note the
`[i]` read of the just-grown vector: it yields the freshly created
handle when the vectors were empty on entry, but a stale pre-existing
entry on a re-entrant call. The same happens for the diff pair. `i` is
the absolute loop index (starting at 0), `k` the remaining iterations.
The read `[i]` is always in range here (the grown vector has at least
`i + 1` entries), so the `getD` default is never taken. Returns the
four updated vectors and the updated registry. -/
def allocLoop (size : Int) (i k : Nat) (cIds bs dIds ds : List Nat)
    (dm : DataManagerState) :
    List Nat × List Nat × List Nat × List Nat × DataManagerState :=
  match k with
  | 0 => (cIds, bs, dIds, ds, dm)
  | k + 1 =>
    let r1 := CreateData dm size
    let cIds1 := cIds ++ [r1.1]
    let bs1 := bs ++ [cIds1.getD i 0]
    let r2 := CreateData r1.2 size
    let dIds1 := dIds ++ [r2.1]
    let ds1 := ds ++ [dIds1.getD i 0]
    allocLoop size (i + 1) k cIds1 bs1 dIds1 ds1 r2.2

/-- `Layer::Setup` (`dnn_layer.h` lines 84-113). If all four input
dimensions are nonzero (standalone mode) it sets the bottom tensor
descriptor, computes `bottom_size = n*c*h*w`, and for each of
`num_inputs_` iterations creates one bottom chunk and one bottom-diff
chunk of that size, pushing the handles and the `GetData` results of
the `[i]`-indexed reads; otherwise (composed mode) it does nothing. -/
def Layer.Setup (s : LayerState) (dm : DataManagerState) :
    LayerState × DataManagerState :=
  if s.input_dim_.n_ ≠ 0 ∧ s.input_dim_.c_ ≠ 0 ∧
      s.input_dim_.h_ ≠ 0 ∧ s.input_dim_.w_ ≠ 0 then
    let bottom_size := s.input_dim_.n_ * s.input_dim_.c_ *
                       s.input_dim_.h_ * s.input_dim_.w_
    let r := allocLoop bottom_size 0 s.num_inputs_.toNat
      s.bottom_chunk_ids_ s.bottoms_
      s.bottom_diff_chunk_ids_ s.bottom_diffs_ dm
    ({ s with
        bottom_desc_ := some s.input_dim_
        bottom_chunk_ids_ := r.1
        bottoms_ := r.2.1
        bottom_diff_chunk_ids_ := r.2.2.1
        bottom_diffs_ := r.2.2.2.1 },
      r.2.2.2.2)
  else
    (s, dm)

/-- Modelled from the spec: the error taxonomy of spec section 7
(`NotReady`, `InvalidHandle`, ...). The code under `src/` declares no
error type at all; this vocabulary exists to state the spec's
error-handling claims against the code. -/
inductive DnnError where
  | OutOfDeviceMemory
  | InvalidHandle
  | AlgorithmSelectionFailed
  | WorkspaceQueryFailed
  | NotReady
deriving DecidableEq

/-- Source line 115: `virtual void ForwardPropagation() {}` — a no-op with
no state check and no error path; it trivially succeeds in every state. -/
def Layer.ForwardPropagation (s : LayerState) : Except DnnError LayerState :=
  Except.ok s

/-- Source line 116: `virtual void BackwardPropagation() {}` — a no-op with
no state check and no error path; it trivially succeeds in every state. -/
def Layer.BackwardPropagation (s : LayerState) : Except DnnError LayerState :=
  Except.ok s

/-- Calls made by `dnn_layer.h` to the external accelerator runtime and
primitives library, recorded as trace events. `filler` is `Data::Filler()`
(the out-of-scope fill routine); `algoQuery` and `wsQuery` are
`cudnnGetConvolutionForwardAlgorithm` and
`cudnnGetConvolutionForwardWorkspaceSize`; `convForward` is
`cudnnConvolutionForward`, carrying the scale-and-accumulate coefficients
`alpha`/`beta` (`DataType::one`/`DataType::zero`), the algorithm
identifier and the workspace size passed to the primitive (the raw buffer
pointers are opaque and elided); `cudaMalloc size` and `cudaFree` are the
workspace allocation (line 229) and release (line 268). -/
inductive DevCall where
  | filler
  | profilerStart
  | profilerStop
  | algoQuery
  | wsQuery
  | convForward (alpha beta : Int) (algo : Nat) (wsSize : Nat)
  | cudaMalloc (size : Nat)
  | cudaFree
deriving DecidableEq

/-- True exactly on `convForward` events. -/
def DevCall.isConvForward : DevCall → Bool
  | .convForward _ _ _ _ => true
  | _ => false

/-- True exactly on `cudaMalloc` events. -/
def DevCall.isCudaMalloc : DevCall → Bool
  | .cudaMalloc _ => true
  | _ => false

/-- State of `ConvolutionLayer<T>` (`dnn_layer.h` lines 120-273) beyond the
base-class part. `desc_` is `none` until `ConvolutionDesc::Set` records the
parameters and input channel count; `top_desc_` likewise for the top
tensor. `weights_`/`weights_chunk_id_` (and the diff pair) are `none`
while uninitialized. `fwd_algo_` is the opaque cuDNN algorithm identifier,
`fwd_workspace_size_` the `size_t` workspace size (both indeterminate
until `Setup` stores the library's answers). The raw `void *workspace_`
pointer is not part of the state; the allocation and release of the
workspace appear as `cudaMalloc`/`cudaFree` trace events. -/
structure ConvolutionLayerState where
  base : LayerState
  conv_param_ : ConvolutionParam
  desc_ : Option (ConvolutionParam × Int)
  num_outputs_ : Int
  output_dim_ : DataDim
  top_desc_ : Option DataDim
  tops_ : List Nat
  top_chunk_ids_ : List Nat
  top_diffs_ : List Nat
  top_diff_chunk_ids_ : List Nat
  weights_ : Option Nat
  weights_chunk_id_ : Option Nat
  weights_diff_ : Option Nat
  weights_diff_chunk_id_ : Option Nat
  fwd_algo_ : Nat
  fwd_workspace_size_ : Nat
deriving DecidableEq

/-- The `ConvolutionLayer` constructor (lines 150-155): base construction,
then `has_learnable_params_ = true` and `num_outputs_ = num_inputs_`;
`conv_param_` is default-constructed in `dnn_param.h` (not under `src/`),
so its initial contents `p0` are a parameter, as are the indeterminate
initial contents `t0` of `type_`, `a0` of `fwd_algo_` and `w0` of
`fwd_workspace_size_`; `output_dim_` is a default (all-zero) `DataDim`. -/
def ConvolutionLayer.init (t0 : LayerType) (p0 : ConvolutionParam)
    (a0 w0 : Nat) : ConvolutionLayerState :=
  { base := { Layer.init t0 with has_learnable_params_ := true }
    conv_param_ := p0
    desc_ := none
    num_outputs_ := (Layer.init t0).num_inputs_
    output_dim_ := ⟨0, 0, 0, 0⟩
    top_desc_ := none
    tops_ := []
    top_chunk_ids_ := []
    top_diffs_ := []
    top_diff_chunk_ids_ := []
    weights_ := none
    weights_chunk_id_ := none
    weights_diff_ := none
    weights_diff_chunk_id_ := none
    fwd_algo_ := a0
    fwd_workspace_size_ := w0 }

/-- The driver writing the input shape through `getInputDim()` and the
convolution parameters through `getConvParam()` (spec section 6: the
parameter source assigns parameters and the input Shape Descriptor before
calling `Setup`). -/
def driverConfigure (s : ConvolutionLayerState) (dim : DataDim)
    (p : ConvolutionParam) : ConvolutionLayerState :=
  { s with base := { s.base with input_dim_ := dim }, conv_param_ := p }

/-- The output-dimension formulas of `ConvolutionLayer::ComputeOutputDim`
(lines 233-242): `n` copied from the input, `c` from `output_num_`, and
`h`/`w` by the C++ `int` division `(in + 2*pad - kernel) / stride + 1`,
which truncates toward zero (`Int.tdiv`). -/
def convOutputDim (dim : DataDim) (p : ConvolutionParam) : DataDim :=
  { n_ := dim.n_
    c_ := p.output_num_
    h_ := (dim.h_ + 2 * p.pad_h_ - p.kernel_size_h_).tdiv p.stride_u_ + 1
    w_ := (dim.w_ + 2 * p.pad_w_ - p.kernel_size_w_).tdiv p.stride_v_ + 1 }

/-- `ConvolutionLayer::ComputeOutputDim` (lines 233-242): stores the
computed dimensions into `output_dim_`. -/
def ConvolutionLayer.ComputeOutputDim (s : ConvolutionLayerState) :
    ConvolutionLayerState :=
  { s with output_dim_ := convOutputDim s.base.input_dim_ s.conv_param_ }

/-- `ConvolutionLayer::Setup` (lines 159-231): base `Layer::Setup` first,
then `desc_.Set(conv_param_, input_dim_.c_)`; in standalone mode (all four
input dimensions nonzero) it computes the output dimensions, sets the top
tensor descriptor, allocates `num_outputs_` top/top-diff chunk pairs of
size `outN*outC*outH*outW`, then exactly one weights chunk and one
weights-diff chunk of size `output_num_ * input_c * kernel_h * kernel_w`;
finally (in both modes) it queries the forward algorithm and its workspace
size — `algoResult` and `wsResult` are the values the cuDNN queries return
— and calls `cudaMalloc` with the returned workspace size. -/
def ConvolutionLayer.Setup (s : ConvolutionLayerState)
    (dm : DataManagerState) (algoResult wsResult : Nat) :
    ConvolutionLayerState × DataManagerState × List DevCall :=
  let b := Layer.Setup s.base dm
  let s1 : ConvolutionLayerState :=
    { s with base := b.1, desc_ := some (s.conv_param_, b.1.input_dim_.c_) }
  let sd :=
    if s1.base.input_dim_.n_ ≠ 0 ∧ s1.base.input_dim_.c_ ≠ 0 ∧
        s1.base.input_dim_.h_ ≠ 0 ∧ s1.base.input_dim_.w_ ≠ 0 then
      let s2 := ConvolutionLayer.ComputeOutputDim s1
      let s3 := { s2 with top_desc_ := some s2.output_dim_ }
      let top_size := s3.output_dim_.n_ * s3.output_dim_.c_ *
                      s3.output_dim_.h_ * s3.output_dim_.w_
      let t := allocLoop top_size 0 s3.num_outputs_.toNat
        s3.top_chunk_ids_ s3.tops_
        s3.top_diff_chunk_ids_ s3.top_diffs_ b.2
      let s4 := { s3 with
        top_chunk_ids_ := t.1
        tops_ := t.2.1
        top_diff_chunk_ids_ := t.2.2.1
        top_diffs_ := t.2.2.2.1 }
      let weights_size := s4.conv_param_.output_num_ *
                          s4.base.input_dim_.c_ *
                          s4.conv_param_.kernel_size_h_ *
                          s4.conv_param_.kernel_size_w_
      let rw := CreateData t.2.2.2.2 weights_size
      let rd := CreateData rw.2 weights_size
      ({ s4 with
          weights_chunk_id_ := some rw.1
          weights_ := some rw.1
          weights_diff_chunk_id_ := some rd.1
          weights_diff_ := some rd.1 },
        rd.2)
    else
      (s1, b.2)
  ({ sd.1 with fwd_algo_ := algoResult, fwd_workspace_size_ := wsResult },
    sd.2,
    [DevCall.algoQuery, DevCall.wsQuery, DevCall.cudaMalloc wsResult])

/-- `ConvolutionLayer::ForwardPropagation` (lines 244-269): fills the
weights and each of the `num_inputs_` bottom buffers, brackets the compute
loop with the profiler markers, issues one `cudnnConvolutionForward` per
input index with coefficients `DataType::one`/`DataType::zero` (1 and 0),
the stored `fwd_algo_` and the stored `fwd_workspace_size_`, and finally
calls `cudaFree(workspace_)`. The state is unchanged. -/
def ConvolutionLayer.ForwardPropagation (s : ConvolutionLayerState) :
    ConvolutionLayerState × List DevCall :=
  (s,
    DevCall.filler ::
      List.replicate s.base.num_inputs_.toNat DevCall.filler ++
      [DevCall.profilerStart] ++
      List.replicate s.base.num_inputs_.toNat
        (DevCall.convForward 1 0 s.fwd_algo_ s.fwd_workspace_size_) ++
      [DevCall.profilerStop, DevCall.cudaFree])

/-- `ConvolutionLayer::BackwardPropagation` (lines 270-271): an empty body,
no state change and no external calls. -/
def ConvolutionLayer.BackwardPropagation (s : ConvolutionLayerState) :
    ConvolutionLayerState × List DevCall :=
  (s, [])

/-! Helper lemmas. -/

/-- Truncating division agrees with floor division on nonnegative
operands. -/
theorem tdiv_eq_fdiv_of_nonneg (a b : Int) (ha : 0 ≤ a) (hb : 0 ≤ b) :
    a.tdiv b = a.fdiv b :=
  (Int.fdiv_eq_tdiv ha hb).symm

/-- Reading the element just pushed: index `l.length` of `l ++ [a]`. -/
theorem getD_concat_self (l : List Nat) (a d : Nat) :
    (l ++ [a]).getD l.length d = a := by
  simp [List.getD_eq_getElem?_getD, List.getElem?_concat_length]

/-- The chunk-id vector after the allocation loop, for any starting
state: the loop appends the `k` fresh data handles
`counter, counter + 2, ...` regardless of the `[i]` reads. -/
theorem allocLoop_chunk_ids (size : Int) (k : Nat) :
    ∀ (i : Nat) (cIds bs dIds ds : List Nat) (dm : DataManagerState),
    (allocLoop size i k cIds bs dIds ds dm).1 =
      cIds ++ (List.range k).map (fun j => dm.sizes.length + 2 * j) := by
  induction k with
  | zero =>
    intro i cIds bs dIds ds dm
    simp [allocLoop]
  | succ k ih =>
    intro i cIds bs dIds ds dm
    simp only [allocLoop, CreateData, ih, List.length_append,
      List.length_cons, List.length_nil, List.range_succ_eq_map,
      List.map_cons, List.map_map, List.append_assoc]
    refine congrArg (cIds ++ ·) (List.cons_eq_cons.mpr ⟨by omega, ?_⟩)
    apply List.map_congr_left
    intro j _
    simp only [Function.comp_apply]
    omega

/-- The diff chunk-id vector after the allocation loop, for any starting
state: the loop appends the `k` fresh gradient handles
`counter + 1, counter + 3, ...`. -/
theorem allocLoop_diff_chunk_ids (size : Int) (k : Nat) :
    ∀ (i : Nat) (cIds bs dIds ds : List Nat) (dm : DataManagerState),
    (allocLoop size i k cIds bs dIds ds dm).2.2.1 =
      dIds ++ (List.range k).map (fun j => dm.sizes.length + 2 * j + 1) := by
  induction k with
  | zero =>
    intro i cIds bs dIds ds dm
    simp [allocLoop]
  | succ k ih =>
    intro i cIds bs dIds ds dm
    simp only [allocLoop, CreateData, ih, List.length_append,
      List.length_cons, List.length_nil, List.range_succ_eq_map,
      List.map_cons, List.map_map, List.append_assoc]
    refine congrArg (dIds ++ ·) (List.cons_eq_cons.mpr ⟨by omega, ?_⟩)
    apply List.map_congr_left
    intro j _
    simp only [Function.comp_apply]
    omega

/-- The registry after the allocation loop, for any starting state: it
gains `2*k` chunks, each of the requested size. -/
theorem allocLoop_registry (size : Int) (k : Nat) :
    ∀ (i : Nat) (cIds bs dIds ds : List Nat) (dm : DataManagerState),
    (allocLoop size i k cIds bs dIds ds dm).2.2.2.2 =
      ⟨dm.sizes ++ List.replicate (2 * k) size⟩ := by
  induction k with
  | zero =>
    intro i cIds bs dIds ds dm
    simp [allocLoop]
  | succ k ih =>
    intro i cIds bs dIds ds dm
    simp only [allocLoop, CreateData, ih, List.append_assoc]
    have h2 : 2 * (k + 1) = 2 + 2 * k := by omega
    rw [h2, List.replicate_add]
    simp [List.replicate_succ]

/-- The pointer vectors gain exactly one entry per iteration, whatever
the `[i]` reads return. -/
theorem allocLoop_ptr_lengths (size : Int) (k : Nat) :
    ∀ (i : Nat) (cIds bs dIds ds : List Nat) (dm : DataManagerState),
    (allocLoop size i k cIds bs dIds ds dm).2.1.length = bs.length + k ∧
    (allocLoop size i k cIds bs dIds ds dm).2.2.2.1.length =
      ds.length + k := by
  induction k with
  | zero =>
    intro i cIds bs dIds ds dm
    simp [allocLoop]
  | succ k ih =>
    intro i cIds bs dIds ds dm
    simp only [allocLoop, CreateData]
    obtain ⟨h1, h2⟩ := ih (i + 1) _ _ _ _ _
    rw [h1, h2]
    simp only [List.length_append, List.length_cons, List.length_nil]
    omega

/-- Characterization of the allocation loop when the loop index is
aligned with the ends of both chunk-id vectors — as it is on a first
`Setup` call, where both start empty and `i` starts at 0. Then every
`[i]` read returns the handle just pushed, so the pointer vectors
receive exactly the fresh handles. -/
theorem allocLoop_aligned_eq (size : Int) (k : Nat) :
    ∀ (i : Nat) (cIds bs dIds ds : List Nat) (dm : DataManagerState),
    i = cIds.length → i = dIds.length →
    allocLoop size i k cIds bs dIds ds dm =
      (cIds ++ (List.range k).map (fun j => dm.sizes.length + 2 * j),
        bs ++ (List.range k).map (fun j => dm.sizes.length + 2 * j),
        dIds ++ (List.range k).map (fun j => dm.sizes.length + 2 * j + 1),
        ds ++ (List.range k).map (fun j => dm.sizes.length + 2 * j + 1),
        ⟨dm.sizes ++ List.replicate (2 * k) size⟩) := by
  induction k with
  | zero =>
    intro i cIds bs dIds ds dm h1 h2
    simp [allocLoop]
  | succ k ih =>
    intro i cIds bs dIds ds dm h1 h2
    simp only [allocLoop, CreateData]
    have e1 : (cIds ++ [dm.sizes.length]).getD i 0 = dm.sizes.length := by
      rw [h1]
      exact getD_concat_self _ _ _
    have e2 : (dIds ++ [(dm.sizes ++ [size]).length]).getD i 0 =
        (dm.sizes ++ [size]).length := by
      rw [h2]
      exact getD_concat_self _ _ _
    rw [e1, e2, ih (i + 1) (cIds ++ [dm.sizes.length])
      (bs ++ [dm.sizes.length]) (dIds ++ [(dm.sizes ++ [size]).length])
      (ds ++ [(dm.sizes ++ [size]).length]) ⟨dm.sizes ++ [size] ++ [size]⟩
      (by simp [h1]) (by simp [h2])]
    simp only [List.length_append, List.length_cons, List.length_nil,
      List.range_succ_eq_map, List.map_cons, List.map_map,
      List.append_assoc, Prod.mk.injEq]
    refine ⟨?_, ?_, ?_, ?_, ?_⟩
    · refine congrArg (cIds ++ ·) (List.cons_eq_cons.mpr ⟨by omega, ?_⟩)
      apply List.map_congr_left
      intro j _
      simp only [Function.comp_apply]
      omega
    · refine congrArg (bs ++ ·) (List.cons_eq_cons.mpr ⟨by omega, ?_⟩)
      apply List.map_congr_left
      intro j _
      simp only [Function.comp_apply]
      omega
    · refine congrArg (dIds ++ ·) (List.cons_eq_cons.mpr ⟨by omega, ?_⟩)
      apply List.map_congr_left
      intro j _
      simp only [Function.comp_apply]
      omega
    · refine congrArg (ds ++ ·) (List.cons_eq_cons.mpr ⟨by omega, ?_⟩)
      apply List.map_congr_left
      intro j _
      simp only [Function.comp_apply]
      omega
    · have h3 : 2 * (k + 1) = 2 + 2 * k := by omega
      rw [h3, List.replicate_add]
      simp [List.replicate_succ]

/-- Characterization of `Layer::Setup` in standalone mode on a first
call, i.e. with both chunk-id vectors still empty: the bottom descriptor
is set, `num_inputs_` pairs of chunks of size `n*c*h*w` are created, the
fresh handles are recorded in push order, and — because the `[i]` reads
then hit exactly the handle just pushed — the pointer vectors receive
the same fresh handles. -/
theorem layer_setup_fresh_eq (s : LayerState) (dm : DataManagerState)
    (hn : s.input_dim_.n_ ≠ 0) (hc : s.input_dim_.c_ ≠ 0)
    (hh : s.input_dim_.h_ ≠ 0) (hw : s.input_dim_.w_ ≠ 0)
    (hb : s.bottom_chunk_ids_ = []) (hd : s.bottom_diff_chunk_ids_ = []) :
    Layer.Setup s dm =
      ({ s with
          bottom_desc_ := some s.input_dim_
          bottom_chunk_ids_ := (List.range s.num_inputs_.toNat).map
            (fun i => dm.sizes.length + 2 * i)
          bottoms_ := s.bottoms_ ++
            (List.range s.num_inputs_.toNat).map
              (fun i => dm.sizes.length + 2 * i)
          bottom_diff_chunk_ids_ := (List.range s.num_inputs_.toNat).map
            (fun i => dm.sizes.length + 2 * i + 1)
          bottom_diffs_ := s.bottom_diffs_ ++
            (List.range s.num_inputs_.toNat).map
              (fun i => dm.sizes.length + 2 * i + 1) },
        ⟨dm.sizes ++ List.replicate (2 * s.num_inputs_.toNat)
          (s.input_dim_.n_ * s.input_dim_.c_ *
            s.input_dim_.h_ * s.input_dim_.w_)⟩) := by
  unfold Layer.Setup
  rw [if_pos ⟨hn, hc, hh, hw⟩, hb, hd]
  simp only [allocLoop_aligned_eq _ _ 0 [] s.bottoms_ [] s.bottom_diffs_
    dm rfl rfl]
  simp

/-- Characterization of `Layer::Setup` in standalone mode from an
arbitrary starting state: the chunk-id vectors always receive the fresh
handles and the registry always gains `2 * num_inputs_` chunks of size
`n*c*h*w`; the pointer vectors gain one entry per logical input (their
contents depend on the `[i]` reads, stale on a re-entrant call), and
`input_dim_` and `num_inputs_` are untouched. -/
theorem layer_setup_general (s : LayerState) (dm : DataManagerState)
    (hn : s.input_dim_.n_ ≠ 0) (hc : s.input_dim_.c_ ≠ 0)
    (hh : s.input_dim_.h_ ≠ 0) (hw : s.input_dim_.w_ ≠ 0) :
    (Layer.Setup s dm).1.input_dim_ = s.input_dim_ ∧
    (Layer.Setup s dm).1.num_inputs_ = s.num_inputs_ ∧
    (Layer.Setup s dm).1.bottom_chunk_ids_ =
      s.bottom_chunk_ids_ ++ (List.range s.num_inputs_.toNat).map
        (fun i => dm.sizes.length + 2 * i) ∧
    (Layer.Setup s dm).1.bottoms_.length =
      s.bottoms_.length + s.num_inputs_.toNat ∧
    (Layer.Setup s dm).1.bottom_diff_chunk_ids_ =
      s.bottom_diff_chunk_ids_ ++ (List.range s.num_inputs_.toNat).map
        (fun i => dm.sizes.length + 2 * i + 1) ∧
    (Layer.Setup s dm).1.bottom_diffs_.length =
      s.bottom_diffs_.length + s.num_inputs_.toNat ∧
    (Layer.Setup s dm).2 =
      ⟨dm.sizes ++ List.replicate (2 * s.num_inputs_.toNat)
        (s.input_dim_.n_ * s.input_dim_.c_ *
          s.input_dim_.h_ * s.input_dim_.w_)⟩ := by
  unfold Layer.Setup
  rw [if_pos ⟨hn, hc, hh, hw⟩]
  refine ⟨rfl, rfl, ?_, ?_, ?_, ?_, ?_⟩
  · exact allocLoop_chunk_ids _ _ _ _ _ _ _ _
  · exact (allocLoop_ptr_lengths _ _ _ _ _ _ _ _).1
  · exact allocLoop_diff_chunk_ids _ _ _ _ _ _ _ _
  · exact (allocLoop_ptr_lengths _ _ _ _ _ _ _ _).2
  · exact allocLoop_registry _ _ _ _ _ _ _ _

/-! Claim theorems. -/

/-- C10: for every layer state and every type value `t`, `setLayerType t`
leaves the stored type tag unchanged — `getLayerType` returns the same
value after `setLayerType t` as before it, because the setter's body
`type = type_;` assigns the stored member to its parameter rather than
the parameter to the member. -/
theorem setLayerType_leaves_type_unchanged (s : LayerState) (t : LayerType) :
    Layer.getLayerType (Layer.setLayerType s t) = Layer.getLayerType s :=
  rfl

/-- C4: when the input `DataDim` is all-zero (composed mode), the base
`Layer::Setup` creates no chunk in the registry and does not touch the
layer state at all — no crash, no allocation, buffer wiring left to the
driver. -/
theorem layer_setup_composed_no_alloc (s : LayerState) (dm : DataManagerState)
    (hn : s.input_dim_.n_ = 0) (hc : s.input_dim_.c_ = 0)
    (hh : s.input_dim_.h_ = 0) (hw : s.input_dim_.w_ = 0) :
    Layer.Setup s dm = (s, dm) := by
  unfold Layer.Setup
  rw [if_neg]
  intro h
  exact h.1 hn

/-- C4 witness: a freshly constructed layer has the all-zero input shape,
and `Setup` on it with an empty registry changes nothing. -/
theorem layer_setup_composed_no_alloc_witness :
    (Layer.init LayerType.CONVOLUTION).input_dim_.n_ = 0 ∧
    (Layer.init LayerType.CONVOLUTION).input_dim_.c_ = 0 ∧
    (Layer.init LayerType.CONVOLUTION).input_dim_.h_ = 0 ∧
    (Layer.init LayerType.CONVOLUTION).input_dim_.w_ = 0 ∧
    Layer.Setup (Layer.init LayerType.CONVOLUTION) ⟨[]⟩ =
      (Layer.init LayerType.CONVOLUTION, ⟨[]⟩) :=
  ⟨rfl, rfl, rfl, rfl,
    layer_setup_composed_no_alloc (Layer.init LayerType.CONVOLUTION) ⟨[]⟩
      rfl rfl rfl rfl⟩

/-- C5: in standalone mode (fully nonzero input shape), on a first call
— the chunk-id vectors still empty, as on a freshly constructed layer —
the base `Layer::Setup` sets the bottom tensor descriptor, computes the
flat buffer size `n*c*h*w`, and for each of `num_inputs_` logical inputs
creates exactly one input chunk and one gradient chunk of that size in
the registry, recording the returned handles in the chunk-id vectors and
(via the then-aligned `GetData(...[i])` reads) the matching buffers in
the pointer vectors. -/
theorem layer_setup_standalone_allocates (s : LayerState)
    (dm : DataManagerState)
    (hn : s.input_dim_.n_ ≠ 0) (hc : s.input_dim_.c_ ≠ 0)
    (hh : s.input_dim_.h_ ≠ 0) (hw : s.input_dim_.w_ ≠ 0)
    (hb : s.bottom_chunk_ids_ = []) (hd : s.bottom_diff_chunk_ids_ = []) :
    (Layer.Setup s dm).2.sizes =
      dm.sizes ++ List.replicate (2 * s.num_inputs_.toNat)
        (s.input_dim_.n_ * s.input_dim_.c_ *
          s.input_dim_.h_ * s.input_dim_.w_) ∧
    (Layer.Setup s dm).1.bottom_chunk_ids_ =
      (List.range s.num_inputs_.toNat).map
        (fun i => dm.sizes.length + 2 * i) ∧
    (Layer.Setup s dm).1.bottoms_ =
      s.bottoms_ ++ (List.range s.num_inputs_.toNat).map
        (fun i => dm.sizes.length + 2 * i) ∧
    (Layer.Setup s dm).1.bottom_diff_chunk_ids_ =
      (List.range s.num_inputs_.toNat).map
        (fun i => dm.sizes.length + 2 * i + 1) ∧
    (Layer.Setup s dm).1.bottom_diffs_ =
      s.bottom_diffs_ ++ (List.range s.num_inputs_.toNat).map
        (fun i => dm.sizes.length + 2 * i + 1) ∧
    (Layer.Setup s dm).1.bottom_desc_ = some s.input_dim_ := by
  rw [layer_setup_fresh_eq s dm hn hc hh hw hb hd]
  exact ⟨rfl, rfl, rfl, rfl, rfl, rfl⟩

/-- C5 witness: a default-constructed layer (`num_inputs_ = 1`, empty
chunk-id vectors) given the input shape `(2,3,8,8)` and an empty
registry: one input chunk (handle 0) and one gradient chunk (handle 1),
both of size `2*3*8*8 = 384`. -/
theorem layer_setup_standalone_allocates_witness :
    ({ Layer.init LayerType.CONVOLUTION with
        input_dim_ := ⟨2, 3, 8, 8⟩ } : LayerState).input_dim_.n_ ≠ 0 ∧
    ({ Layer.init LayerType.CONVOLUTION with
        input_dim_ := ⟨2, 3, 8, 8⟩ } : LayerState).input_dim_.c_ ≠ 0 ∧
    ({ Layer.init LayerType.CONVOLUTION with
        input_dim_ := ⟨2, 3, 8, 8⟩ } : LayerState).input_dim_.h_ ≠ 0 ∧
    ({ Layer.init LayerType.CONVOLUTION with
        input_dim_ := ⟨2, 3, 8, 8⟩ } : LayerState).input_dim_.w_ ≠ 0 ∧
    ({ Layer.init LayerType.CONVOLUTION with
        input_dim_ := ⟨2, 3, 8, 8⟩ } : LayerState).bottom_chunk_ids_ =
      [] ∧
    ({ Layer.init LayerType.CONVOLUTION with
        input_dim_ := ⟨2, 3, 8, 8⟩ } : LayerState).bottom_diff_chunk_ids_ =
      [] ∧
    ((Layer.Setup { Layer.init LayerType.CONVOLUTION with
        input_dim_ := ⟨2, 3, 8, 8⟩ } ⟨[]⟩).2.sizes =
      [] ++ List.replicate (2 * (1 : Int).toNat)
        ((2 : Int) * 3 * 8 * 8) ∧
    (Layer.Setup { Layer.init LayerType.CONVOLUTION with
        input_dim_ := ⟨2, 3, 8, 8⟩ } ⟨[]⟩).1.bottom_chunk_ids_ =
      (List.range (1 : Int).toNat).map (fun i => 0 + 2 * i) ∧
    (Layer.Setup { Layer.init LayerType.CONVOLUTION with
        input_dim_ := ⟨2, 3, 8, 8⟩ } ⟨[]⟩).1.bottoms_ =
      [] ++ (List.range (1 : Int).toNat).map (fun i => 0 + 2 * i) ∧
    (Layer.Setup { Layer.init LayerType.CONVOLUTION with
        input_dim_ := ⟨2, 3, 8, 8⟩ } ⟨[]⟩).1.bottom_diff_chunk_ids_ =
      (List.range (1 : Int).toNat).map (fun i => 0 + 2 * i + 1) ∧
    (Layer.Setup { Layer.init LayerType.CONVOLUTION with
        input_dim_ := ⟨2, 3, 8, 8⟩ } ⟨[]⟩).1.bottom_diffs_ =
      [] ++ (List.range (1 : Int).toNat).map (fun i => 0 + 2 * i + 1) ∧
    (Layer.Setup { Layer.init LayerType.CONVOLUTION with
        input_dim_ := ⟨2, 3, 8, 8⟩ } ⟨[]⟩).1.bottom_desc_ =
      some ⟨2, 3, 8, 8⟩) :=
  ⟨by decide, by decide, by decide, by decide, rfl, rfl,
    layer_setup_standalone_allocates
      { Layer.init LayerType.CONVOLUTION with input_dim_ := ⟨2, 3, 8, 8⟩ }
      ⟨[]⟩ (by decide) (by decide) (by decide) (by decide) rfl rfl⟩

/-- C8: `Layer::Setup` is not idempotent. Starting from a standalone-mode
layer holding no buffers, one `Setup` call records `num_inputs_` input
handles, and a second `Setup` call re-executes the allocation path
unguarded, leaving `2 * num_inputs_` input handles and `2 * num_inputs_`
gradient handles — two buffers per logical input instead of one. -/
theorem layer_setup_not_idempotent (s : LayerState) (dm : DataManagerState)
    (hn : s.input_dim_.n_ ≠ 0) (hc : s.input_dim_.c_ ≠ 0)
    (hh : s.input_dim_.h_ ≠ 0) (hw : s.input_dim_.w_ ≠ 0)
    (h1 : s.bottom_chunk_ids_ = []) (h2 : s.bottoms_ = [])
    (h3 : s.bottom_diff_chunk_ids_ = []) (h4 : s.bottom_diffs_ = []) :
    (Layer.Setup s dm).1.bottom_chunk_ids_.length = s.num_inputs_.toNat ∧
    (Layer.Setup s dm).1.bottom_diff_chunk_ids_.length =
      s.num_inputs_.toNat ∧
    (Layer.Setup (Layer.Setup s dm).1
        (Layer.Setup s dm).2).1.bottom_chunk_ids_.length =
      2 * s.num_inputs_.toNat ∧
    (Layer.Setup (Layer.Setup s dm).1
        (Layer.Setup s dm).2).1.bottoms_.length =
      2 * s.num_inputs_.toNat ∧
    (Layer.Setup (Layer.Setup s dm).1
        (Layer.Setup s dm).2).1.bottom_diff_chunk_ids_.length =
      2 * s.num_inputs_.toNat ∧
    (Layer.Setup (Layer.Setup s dm).1
        (Layer.Setup s dm).2).1.bottom_diffs_.length =
      2 * s.num_inputs_.toNat := by
  have e1 := layer_setup_fresh_eq s dm hn hc hh hw h1 h3
  obtain ⟨gi, gn, gc, gb, gdc, gdb, gdm⟩ :=
    layer_setup_general (Layer.Setup s dm).1 (Layer.Setup s dm).2
      (by rw [e1]; exact hn) (by rw [e1]; exact hc)
      (by rw [e1]; exact hh) (by rw [e1]; exact hw)
  refine ⟨?_, ?_, ?_, ?_, ?_, ?_⟩
  · rw [e1]
    simp
  · rw [e1]
    simp
  · rw [gc, e1]
    simp [Nat.two_mul]
  · rw [gb, e1]
    simp [h2, Nat.two_mul]
  · rw [gdc, e1]
    simp [Nat.two_mul]
  · rw [gdb, e1]
    simp [h4, Nat.two_mul]

/-- C8 witness: with input shape `(2,3,8,8)` and `num_inputs_ = 1`, the
first `Setup` records one input handle, and a second `Setup` leaves two
input handles and two gradient handles. -/
theorem layer_setup_not_idempotent_witness :
    ({ Layer.init LayerType.CONVOLUTION with
        input_dim_ := ⟨2, 3, 8, 8⟩ } : LayerState).input_dim_.n_ ≠ 0 ∧
    ((Layer.Setup { Layer.init LayerType.CONVOLUTION with
          input_dim_ := ⟨2, 3, 8, 8⟩ }
        ⟨[]⟩).1.bottom_chunk_ids_.length = (1 : Int).toNat ∧
      (Layer.Setup { Layer.init LayerType.CONVOLUTION with
          input_dim_ := ⟨2, 3, 8, 8⟩ }
        ⟨[]⟩).1.bottom_diff_chunk_ids_.length = (1 : Int).toNat ∧
      (Layer.Setup
          (Layer.Setup { Layer.init LayerType.CONVOLUTION with
              input_dim_ := ⟨2, 3, 8, 8⟩ } ⟨[]⟩).1
          (Layer.Setup { Layer.init LayerType.CONVOLUTION with
              input_dim_ := ⟨2, 3, 8, 8⟩ }
            ⟨[]⟩).2).1.bottom_chunk_ids_.length = 2 * (1 : Int).toNat ∧
      (Layer.Setup
          (Layer.Setup { Layer.init LayerType.CONVOLUTION with
              input_dim_ := ⟨2, 3, 8, 8⟩ } ⟨[]⟩).1
          (Layer.Setup { Layer.init LayerType.CONVOLUTION with
              input_dim_ := ⟨2, 3, 8, 8⟩ }
            ⟨[]⟩).2).1.bottoms_.length = 2 * (1 : Int).toNat ∧
      (Layer.Setup
          (Layer.Setup { Layer.init LayerType.CONVOLUTION with
              input_dim_ := ⟨2, 3, 8, 8⟩ } ⟨[]⟩).1
          (Layer.Setup { Layer.init LayerType.CONVOLUTION with
              input_dim_ := ⟨2, 3, 8, 8⟩ }
            ⟨[]⟩).2).1.bottom_diff_chunk_ids_.length =
        2 * (1 : Int).toNat ∧
      (Layer.Setup
          (Layer.Setup { Layer.init LayerType.CONVOLUTION with
              input_dim_ := ⟨2, 3, 8, 8⟩ } ⟨[]⟩).1
          (Layer.Setup { Layer.init LayerType.CONVOLUTION with
              input_dim_ := ⟨2, 3, 8, 8⟩ }
            ⟨[]⟩).2).1.bottom_diffs_.length = 2 * (1 : Int).toNat) :=
  ⟨by decide,
    layer_setup_not_idempotent
      { Layer.init LayerType.CONVOLUTION with input_dim_ := ⟨2, 3, 8, 8⟩ }
      ⟨[]⟩ (by decide) (by decide) (by decide) (by decide)
      rfl rfl rfl rfl⟩

/-- C3 counterexample: on a freshly constructed layer — `Setup` has never
been called on it — `ForwardPropagation` and `BackwardPropagation` do not
fail with `NotReady`: they are unchecked no-ops that succeed. -/
theorem propagation_before_setup_no_noterror :
    Layer.ForwardPropagation (Layer.init LayerType.CONVOLUTION) ≠
      Except.error DnnError.NotReady ∧
    Layer.BackwardPropagation (Layer.init LayerType.CONVOLUTION) ≠
      Except.error DnnError.NotReady ∧
    (ConvolutionLayer.ForwardPropagation
        (ConvolutionLayer.init LayerType.CONVOLUTION
          ⟨1, 0, 0, 1, 1, 1, 1, 0⟩ 0 0)).2 ≠ [] := by
  refine ⟨?_, ?_, ?_⟩
  · intro h
    exact Except.noConfusion h
  · intro h
    exact Except.noConfusion h
  · intro h
    exact List.noConfusion h

/-- C3 (amended): the code performs no readiness check at all. In every
state — in particular before any call to `Setup` — the base
`ForwardPropagation` and `BackwardPropagation` are no-ops that succeed,
and `ConvolutionLayer::ForwardPropagation` proceeds unconditionally to
issue its external calls; no `NotReady` error path exists in the code. -/
theorem propagation_never_not_ready (s : LayerState)
    (cs : ConvolutionLayerState) :
    Layer.ForwardPropagation s = Except.ok s ∧
    Layer.BackwardPropagation s = Except.ok s ∧
    (ConvolutionLayer.ForwardPropagation cs).1 = cs ∧
    (ConvolutionLayer.ForwardPropagation cs).2 ≠ [] :=
  ⟨rfl, rfl, rfl, by simp [ConvolutionLayer.ForwardPropagation]⟩

/-- C1 counterexample: the input shape `(1,1,1,1)` is strictly positive,
and the parameters `kernel_h = 5`, `pad_h = 0`, `stride_h = 3` are a
convolution parameter set, yet `ComputeOutputDim` yields
`outH = (1 - 5) / 3 + 1 = 0` by C++ truncating division, while the
claimed floor division gives `floor(-4/3) + 1 = -1`. -/
theorem compute_output_dim_not_floor :
    (0 : Int) <
      (driverConfigure
        (ConvolutionLayer.init LayerType.CONVOLUTION ⟨1, 0, 0, 5, 1, 3, 1, 0⟩
          0 0) ⟨1, 1, 1, 1⟩
        ⟨1, 0, 0, 5, 1, 3, 1, 0⟩).base.input_dim_.n_ ∧
    (0 : Int) <
      (driverConfigure
        (ConvolutionLayer.init LayerType.CONVOLUTION ⟨1, 0, 0, 5, 1, 3, 1, 0⟩
          0 0) ⟨1, 1, 1, 1⟩
        ⟨1, 0, 0, 5, 1, 3, 1, 0⟩).base.input_dim_.c_ ∧
    (0 : Int) <
      (driverConfigure
        (ConvolutionLayer.init LayerType.CONVOLUTION ⟨1, 0, 0, 5, 1, 3, 1, 0⟩
          0 0) ⟨1, 1, 1, 1⟩
        ⟨1, 0, 0, 5, 1, 3, 1, 0⟩).base.input_dim_.h_ ∧
    (0 : Int) <
      (driverConfigure
        (ConvolutionLayer.init LayerType.CONVOLUTION ⟨1, 0, 0, 5, 1, 3, 1, 0⟩
          0 0) ⟨1, 1, 1, 1⟩
        ⟨1, 0, 0, 5, 1, 3, 1, 0⟩).base.input_dim_.w_ ∧
    ¬ ((ConvolutionLayer.ComputeOutputDim
          (driverConfigure
            (ConvolutionLayer.init LayerType.CONVOLUTION
              ⟨1, 0, 0, 5, 1, 3, 1, 0⟩ 0 0) ⟨1, 1, 1, 1⟩
            ⟨1, 0, 0, 5, 1, 3, 1, 0⟩)).output_dim_.h_ =
        ((1 : Int) + 2 * 0 - 5).fdiv 3 + 1) := by
  refine ⟨by decide, by decide, by decide, by decide, by decide⟩

/-- C1 (amended): for every strictly positive input shape and every
convolution parameter set with positive strides and kernels not larger
than the padded input (so the division numerators are nonnegative),
`ComputeOutputDim` satisfies `outN = inN`, `outC = output_num_`,
`outH = floor((inH + 2*padH - kernelH) / strideH) + 1` and
`outW = floor((inW + 2*padW - kernelW) / strideW) + 1` with no rounding
adjustment. (In general the C++ code truncates the division toward zero,
which differs from floor division exactly when the numerator is
negative.) -/
theorem compute_output_dim_floor_formula (s : ConvolutionLayerState)
    (hn : 0 < s.base.input_dim_.n_) (hc : 0 < s.base.input_dim_.c_)
    (hh : 0 < s.base.input_dim_.h_) (hw : 0 < s.base.input_dim_.w_)
    (hsu : 0 < s.conv_param_.stride_u_) (hsv : 0 < s.conv_param_.stride_v_)
    (hkh : s.conv_param_.kernel_size_h_ ≤
      s.base.input_dim_.h_ + 2 * s.conv_param_.pad_h_)
    (hkw : s.conv_param_.kernel_size_w_ ≤
      s.base.input_dim_.w_ + 2 * s.conv_param_.pad_w_) :
    (ConvolutionLayer.ComputeOutputDim s).output_dim_.n_ =
      s.base.input_dim_.n_ ∧
    (ConvolutionLayer.ComputeOutputDim s).output_dim_.c_ =
      s.conv_param_.output_num_ ∧
    (ConvolutionLayer.ComputeOutputDim s).output_dim_.h_ =
      (s.base.input_dim_.h_ + 2 * s.conv_param_.pad_h_ -
        s.conv_param_.kernel_size_h_).fdiv s.conv_param_.stride_u_ + 1 ∧
    (ConvolutionLayer.ComputeOutputDim s).output_dim_.w_ =
      (s.base.input_dim_.w_ + 2 * s.conv_param_.pad_w_ -
        s.conv_param_.kernel_size_w_).fdiv s.conv_param_.stride_v_ + 1 := by
  refine ⟨rfl, rfl, ?_, ?_⟩
  · show (s.base.input_dim_.h_ + 2 * s.conv_param_.pad_h_ -
      s.conv_param_.kernel_size_h_).tdiv s.conv_param_.stride_u_ + 1 = _
    rw [tdiv_eq_fdiv_of_nonneg _ _ (by omega) (by omega)]
  · show (s.base.input_dim_.w_ + 2 * s.conv_param_.pad_w_ -
      s.conv_param_.kernel_size_w_).tdiv s.conv_param_.stride_v_ + 1 = _
    rw [tdiv_eq_fdiv_of_nonneg _ _ (by omega) (by omega)]

/-- C1 witness: the spec's own example — input `(1,3,32,32)`, kernel
`5x5`, pad `2`, stride `1`, 7 output channels — gives output
`(1, 7, 32, 32)`. -/
theorem compute_output_dim_floor_formula_witness :
    (0 : Int) <
      (driverConfigure
        (ConvolutionLayer.init LayerType.CONVOLUTION ⟨7, 2, 2, 5, 5, 1, 1, 0⟩
          0 0) ⟨1, 3, 32, 32⟩
        ⟨7, 2, 2, 5, 5, 1, 1, 0⟩).base.input_dim_.n_ ∧
    ((ConvolutionLayer.ComputeOutputDim
        (driverConfigure
          (ConvolutionLayer.init LayerType.CONVOLUTION
            ⟨7, 2, 2, 5, 5, 1, 1, 0⟩ 0 0) ⟨1, 3, 32, 32⟩
          ⟨7, 2, 2, 5, 5, 1, 1, 0⟩)).output_dim_.n_ = (1 : Int) ∧
    (ConvolutionLayer.ComputeOutputDim
        (driverConfigure
          (ConvolutionLayer.init LayerType.CONVOLUTION
            ⟨7, 2, 2, 5, 5, 1, 1, 0⟩ 0 0) ⟨1, 3, 32, 32⟩
          ⟨7, 2, 2, 5, 5, 1, 1, 0⟩)).output_dim_.c_ = (7 : Int) ∧
    (ConvolutionLayer.ComputeOutputDim
        (driverConfigure
          (ConvolutionLayer.init LayerType.CONVOLUTION
            ⟨7, 2, 2, 5, 5, 1, 1, 0⟩ 0 0) ⟨1, 3, 32, 32⟩
          ⟨7, 2, 2, 5, 5, 1, 1, 0⟩)).output_dim_.h_ = (32 : Int) ∧
    (ConvolutionLayer.ComputeOutputDim
        (driverConfigure
          (ConvolutionLayer.init LayerType.CONVOLUTION
            ⟨7, 2, 2, 5, 5, 1, 1, 0⟩ 0 0) ⟨1, 3, 32, 32⟩
          ⟨7, 2, 2, 5, 5, 1, 1, 0⟩)).output_dim_.w_ = (32 : Int)) := by
  refine ⟨by decide, ?_⟩
  have h := compute_output_dim_floor_formula
    (driverConfigure
      (ConvolutionLayer.init LayerType.CONVOLUTION ⟨7, 2, 2, 5, 5, 1, 1, 0⟩
        0 0) ⟨1, 3, 32, 32⟩ ⟨7, 2, 2, 5, 5, 1, 1, 0⟩)
    (by decide) (by decide) (by decide) (by decide)
    (by decide) (by decide) (by decide) (by decide)
  obtain ⟨e1, e2, e3, e4⟩ := h
  refine ⟨by rw [e1]; decide, by rw [e2]; decide,
    by rw [e3]; decide, by rw [e4]; decide⟩

/-- The external-call trace of `ConvolutionLayer::Setup` is the same in
both modes: the algorithm query, the workspace-size query, and one
`cudaMalloc` with exactly the queried workspace size. -/
theorem conv_setup_trace (s : ConvolutionLayerState) (dm : DataManagerState)
    (a w : Nat) :
    (ConvolutionLayer.Setup s dm a w).2.2 =
      [DevCall.algoQuery, DevCall.wsQuery, DevCall.cudaMalloc w] :=
  rfl

/-- `ConvolutionLayer::Setup` stores the algorithm returned by the
selection query into `fwd_algo_`. -/
theorem conv_setup_fwd_algo (s : ConvolutionLayerState)
    (dm : DataManagerState) (a w : Nat) :
    (ConvolutionLayer.Setup s dm a w).1.fwd_algo_ = a :=
  rfl

/-- `ConvolutionLayer::Setup` stores the size returned by the workspace
query into `fwd_workspace_size_`. -/
theorem conv_setup_fwd_workspace_size (s : ConvolutionLayerState)
    (dm : DataManagerState) (a w : Nat) :
    (ConvolutionLayer.Setup s dm a w).1.fwd_workspace_size_ = w :=
  rfl

/-- `Layer::Setup` never changes `num_inputs_`. -/
theorem layer_setup_num_inputs (s : LayerState) (dm : DataManagerState) :
    (Layer.Setup s dm).1.num_inputs_ = s.num_inputs_ := by
  unfold Layer.Setup
  split <;> rfl

/-- `ConvolutionLayer::Setup` never changes `num_inputs_`. -/
theorem conv_setup_num_inputs (s : ConvolutionLayerState)
    (dm : DataManagerState) (a w : Nat) :
    (ConvolutionLayer.Setup s dm a w).1.base.num_inputs_ =
      s.base.num_inputs_ := by
  simp only [ConvolutionLayer.Setup]
  split
  · simp [ConvolutionLayer.ComputeOutputDim, layer_setup_num_inputs]
  · simp [layer_setup_num_inputs]

/-- C2 counterexample: even when the workspace-size query returns zero,
`ConvolutionLayer::Setup` still performs the `cudaMalloc` device
allocation call for the scratch buffer (here on a default-constructed
layer in composed mode, with both query oracles returning 0). -/
theorem setup_zero_workspace_still_mallocs :
    DevCall.cudaMalloc 0 ∈
      (ConvolutionLayer.Setup
        (ConvolutionLayer.init LayerType.CONVOLUTION
          ⟨1, 0, 0, 1, 1, 1, 1, 0⟩ 0 0) ⟨[]⟩ 0 0).2.2 := by
  rw [conv_setup_trace]
  decide

/-- C2 (amended): `ConvolutionLayer::Setup` unconditionally performs
exactly one scratch `cudaMalloc` call, with exactly the size the
workspace query returned — including when that size is zero. -/
theorem setup_always_mallocs_workspace (s : ConvolutionLayerState)
    (dm : DataManagerState) (a w : Nat) :
    ((ConvolutionLayer.Setup s dm a w).2.2).filter DevCall.isCudaMalloc =
      [DevCall.cudaMalloc w] := by
  rw [conv_setup_trace]
  simp [List.filter, DevCall.isCudaMalloc]

/-- C7: every `ConvolutionLayer::ForwardPropagation` call ends, after its
per-input compute loop, by releasing the scratch workspace: the last
external call of its trace is the `cudaFree` of the workspace, so the
scratch does not outlive the `ForwardPropagation` call. -/
theorem conv_forward_releases_workspace (s : ConvolutionLayerState) :
    ((ConvolutionLayer.ForwardPropagation s).2).getLast? =
      some DevCall.cudaFree := by
  simp [ConvolutionLayer.ForwardPropagation, List.getLast?_cons,
    List.getLast?_append]

/-- C9: after a `Setup` whose algorithm query returned `a` and whose
workspace query returned `w`, `ForwardPropagation` issues exactly
`num_inputs_` calls of the external forward-convolution primitive — one
per input index — each with the unit scale-and-accumulate coefficients
`alpha = 1`, `beta = 0` (the output is overwritten, not accumulated) and
each using the algorithm `a` and the workspace size `w` selected during
`Setup`. -/
theorem conv_forward_primitive_calls (s : ConvolutionLayerState)
    (dm : DataManagerState) (a w : Nat) :
    ((ConvolutionLayer.ForwardPropagation
        (ConvolutionLayer.Setup s dm a w).1).2).filter
        DevCall.isConvForward =
      List.replicate s.base.num_inputs_.toNat
        (DevCall.convForward 1 0 a w) := by
  simp only [ConvolutionLayer.ForwardPropagation, conv_setup_num_inputs,
    conv_setup_fwd_algo, conv_setup_fwd_workspace_size]
  simp [List.filter_append, List.filter_replicate, DevCall.isConvForward,
    List.filter]

/-- C6: in standalone mode, `ConvolutionLayer::Setup` creates — after the
`2 * num_inputs_` bottom chunks of the base `Setup` and the
`2 * num_outputs_` top chunks — exactly one weights chunk and one
weights-gradient chunk, each of size
`output_num_ * input_c * kernel_size_h_ * kernel_size_w_`, recording
their two fresh handles; the weight pair is a single trailing `[ws, ws]`
segment of the registry, independent of `num_inputs_` (over which the
theorem is quantified). -/
theorem conv_setup_single_weight_pair (s : ConvolutionLayerState)
    (dm : DataManagerState) (a w : Nat)
    (hn : s.base.input_dim_.n_ ≠ 0) (hc : s.base.input_dim_.c_ ≠ 0)
    (hh : s.base.input_dim_.h_ ≠ 0) (hw : s.base.input_dim_.w_ ≠ 0) :
    (ConvolutionLayer.Setup s dm a w).1.weights_chunk_id_ =
      some (dm.sizes.length + 2 * s.base.num_inputs_.toNat +
        2 * s.num_outputs_.toNat) ∧
    (ConvolutionLayer.Setup s dm a w).1.weights_diff_chunk_id_ =
      some (dm.sizes.length + 2 * s.base.num_inputs_.toNat +
        2 * s.num_outputs_.toNat + 1) ∧
    (ConvolutionLayer.Setup s dm a w).2.1.sizes =
      dm.sizes ++
        List.replicate (2 * s.base.num_inputs_.toNat)
          (s.base.input_dim_.n_ * s.base.input_dim_.c_ *
            s.base.input_dim_.h_ * s.base.input_dim_.w_) ++
        List.replicate (2 * s.num_outputs_.toNat)
          ((convOutputDim s.base.input_dim_ s.conv_param_).n_ *
            (convOutputDim s.base.input_dim_ s.conv_param_).c_ *
            (convOutputDim s.base.input_dim_ s.conv_param_).h_ *
            (convOutputDim s.base.input_dim_ s.conv_param_).w_) ++
        [s.conv_param_.output_num_ * s.base.input_dim_.c_ *
            s.conv_param_.kernel_size_h_ * s.conv_param_.kernel_size_w_,
          s.conv_param_.output_num_ * s.base.input_dim_.c_ *
            s.conv_param_.kernel_size_h_ * s.conv_param_.kernel_size_w_] := by
  obtain ⟨gi, gn, gc, gb, gdc, gdb, gdm⟩ :=
    layer_setup_general s.base dm hn hc hh hw
  have hcond : (Layer.Setup s.base dm).1.input_dim_.n_ ≠ 0 ∧
      (Layer.Setup s.base dm).1.input_dim_.c_ ≠ 0 ∧
      (Layer.Setup s.base dm).1.input_dim_.h_ ≠ 0 ∧
      (Layer.Setup s.base dm).1.input_dim_.w_ ≠ 0 := by
    rw [gi]
    exact ⟨hn, hc, hh, hw⟩
  simp only [ConvolutionLayer.Setup, ConvolutionLayer.ComputeOutputDim]
  rw [if_pos hcond]
  simp only [gi, gdm, allocLoop_registry, CreateData,
    List.length_append, List.length_replicate]
  refine ⟨trivial, ?_, ?_⟩
  · simp
  · simp [List.append_assoc]

/-- C6 witness: the spec's end-to-end scenario — input `(2,3,8,8)`,
kernel `3x3`, stride `1`, pad `1`, 4 output channels, one logical input —
allocates bottom chunks of 384 elements, top chunks of 512 elements, and
exactly one weights pair of `4*3*3*3 = 108` elements at handles 4 and 5. -/
theorem conv_setup_single_weight_pair_witness :
    (driverConfigure
        (ConvolutionLayer.init LayerType.CONVOLUTION ⟨4, 1, 1, 3, 3, 1, 1, 0⟩
          0 0) ⟨2, 3, 8, 8⟩
        ⟨4, 1, 1, 3, 3, 1, 1, 0⟩).base.input_dim_.n_ ≠ 0 ∧
    ((ConvolutionLayer.Setup
        (driverConfigure
          (ConvolutionLayer.init LayerType.CONVOLUTION
            ⟨4, 1, 1, 3, 3, 1, 1, 0⟩ 0 0) ⟨2, 3, 8, 8⟩
          ⟨4, 1, 1, 3, 3, 1, 1, 0⟩)
        ⟨[]⟩ 0 0).1.weights_chunk_id_ = some 4 ∧
    (ConvolutionLayer.Setup
        (driverConfigure
          (ConvolutionLayer.init LayerType.CONVOLUTION
            ⟨4, 1, 1, 3, 3, 1, 1, 0⟩ 0 0) ⟨2, 3, 8, 8⟩
          ⟨4, 1, 1, 3, 3, 1, 1, 0⟩)
        ⟨[]⟩ 0 0).1.weights_diff_chunk_id_ = some 5 ∧
    (ConvolutionLayer.Setup
        (driverConfigure
          (ConvolutionLayer.init LayerType.CONVOLUTION
            ⟨4, 1, 1, 3, 3, 1, 1, 0⟩ 0 0) ⟨2, 3, 8, 8⟩
          ⟨4, 1, 1, 3, 3, 1, 1, 0⟩)
        ⟨[]⟩ 0 0).2.1.sizes =
      [384, 384, 512, 512, 108, 108]) := by
  refine ⟨by decide, ?_⟩
  have h := conv_setup_single_weight_pair
    (driverConfigure
      (ConvolutionLayer.init LayerType.CONVOLUTION ⟨4, 1, 1, 3, 3, 1, 1, 0⟩
        0 0) ⟨2, 3, 8, 8⟩ ⟨4, 1, 1, 3, 3, 1, 1, 0⟩)
    ⟨[]⟩ 0 0 (by decide) (by decide) (by decide) (by decide)
  obtain ⟨h1, h2, h3⟩ := h
  refine ⟨by rw [h1]; decide, by rw [h2]; decide, by rw [h3]; decide⟩

end DNNMark
